import Mathlib

/-!
Shallow embedding of the AgentBox sandbox manager
(`src/agent/core/sandbox_manager.py`) and of the real-time test streaming
plugin (`src/agent/tests/plugins/realtime_streaming.py`).

External effects are made explicit:
* the Supabase `sandboxes` table is a list of rows (`List SandboxRow`);
* the in-memory `active_sandboxes` dict is the list of its keys, and
  `sandbox_metadata` an association list;
* calls to the E2B provider and to the realtime streamer are recorded in
  traces, and the outcome of each external call (success or raised
  exception) is an explicit oracle argument;
* a Python function that can raise is modelled with `PyResult`.
Timestamps are seconds since the epoch, as naturals; each manager operation
receives the single instant `now` at which its `datetime.utcnow()` calls
are made.
-/

namespace AgentBox

/-- Outcome of a Python call: a returned value, or a raised exception
carrying its message. -/
inductive PyResult (α : Type) where
  | ok (value : α)
  | error (message : String)
deriving Repr, DecidableEq

/-- True when the call returned normally. -/
def PyResult.isOk {α : Type} : PyResult α → Bool
  | .ok _ => true
  | .error _ => false

/-- One row of the `sandboxes` table, with the fields `create_sandbox`
stores (`src/agent/core/sandbox_manager.py:79-95`).  `created_at` is the
`metadata.created_at` entry. -/
structure SandboxRow where
  internal_id : String
  e2b_sandbox_id : String
  user_id : String
  template : String
  status : String
  boot_time_ms : Nat
  last_activity_at : Nat
  expires_at : Nat
  created_at : Nat
  task_id : Option String
deriving Repr, DecidableEq

/-- Configuration read once at startup (`SandboxManager.__init__`). -/
structure Config where
  default_template : String
  max_execution_time : Nat
  max_sandboxes_per_user : Nat
deriving Repr, DecidableEq

/-- Mutable state of a `SandboxManager` together with its database:
the `sandboxes` table, the keys of the `active_sandboxes` dict and the
`sandbox_metadata` dict. -/
structure ManagerState where
  db : List SandboxRow
  active : List String
  metadata : List (String × SandboxRow)
deriving Repr, DecidableEq

/-- A call made to the E2B provider. -/
inductive ProviderCall where
  | create (template : String)
  | processStart (sandbox_id cmd : String) (timeout : Nat)
  | close (sandbox_id : String)
deriving Repr, DecidableEq

/-- A call made to the realtime streamer: `stream_log` or
`stream_sandbox_event`. -/
inductive StreamCall where
  | log (sandbox_id event_type message : String) (task_id : Option String)
  | sandboxEvent (sandbox_id event_type : String)
deriving Repr, DecidableEq

/-- Modelled from the spec: `core/realtime_streamer.py` is imported by the
manager but is not under `src/`.  Section 4.5 fixes its contract: `emit` is
best-effort, a sink failure is caught, logged and discarded, and emission
never raises into the caller.  A stream call therefore always returns
normally; the Boolean recorded next to the event says whether the sink
accepted it. -/
def streamDeliver (ev : StreamCall) (sinkOk : Bool) : StreamCall × Bool :=
  (ev, sinkOk)

/-- Modelled from the spec: `core/security_validator.py` is imported by the
manager but is not under `src/`.  Section 4.1: `validate(code)` is a pure
function returning `(safe, reason)` whose concrete ruleset is an external
collaborator, so the verdict for the code string under execution is an
input of the model. -/
structure SecurityVerdict where
  is_safe : Bool
  reason : String
deriving Repr, DecidableEq

/-! Database operations used by the manager, as pure functions on the
list of rows (each mirrors one supabase call in the source). -/

/-- `_get_user_sandbox_count`: count of rows with this `user_id` and
`status = 'running'` (`sandbox_manager.py:418-425`). -/
def countRunning (db : List SandboxRow) (uid : String) : Nat :=
  (db.filter (fun r => r.user_id == uid && r.status == "running")).length

/-- The update performed by `_update_sandbox_activity`
(`sandbox_manager.py:427-432`): set `last_activity_at = now` on every row
whose `e2b_sandbox_id` matches. -/
def updateActivity (db : List SandboxRow) (sid : String) (now : Nat) :
    List SandboxRow :=
  db.map (fun r =>
    if r.e2b_sandbox_id == sid then { r with last_activity_at := now } else r)

/-- The update performed by `destroy_sandbox` (`sandbox_manager.py:377-380`):
set `status = 'stopped'` and `last_activity_at = now` on matching rows. -/
def updateStopped (db : List SandboxRow) (sid : String) (now : Nat) :
    List SandboxRow :=
  db.map (fun r =>
    if r.e2b_sandbox_id == sid then
      { r with status := "stopped", last_activity_at := now }
    else r)

/-- The select performed by `cleanup_expired_sandboxes`
(`sandbox_manager.py:401-403`): rows with `expires_at` strictly below `now`
(supabase `.lt`) and `status = 'running'`. -/
def selectExpiredRunning (db : List SandboxRow) (now : Nat) :
    List SandboxRow :=
  db.filter (fun r => decide (r.expires_at < now) && r.status == "running")

/-! Helpers for the Python dicts `active_sandboxes` / `sandbox_metadata`. -/

/-- Key set after `d[k] = v` on a dict represented by its key list. -/
def dictInsertKey (keys : List String) (k : String) : List String :=
  if k ∈ keys then keys else keys ++ [k]

/-- Association list after `d[k] = v`. -/
def dictSet (m : List (String × SandboxRow)) (k : String) (v : SandboxRow) :
    List (String × SandboxRow) :=
  if m.any (fun p => p.1 == k) then
    m.map (fun p => if p.1 == k then (k, v) else p)
  else m ++ [(k, v)]

/-- Association list after `del d[k]` (total: no-op when absent, the source
guards the `del` with an `in` check). -/
def dictDel (m : List (String × SandboxRow)) (k : String) :
    List (String × SandboxRow) :=
  m.filter (fun p => !(p.1 == k))

/-- Key list after `del d[k]`. -/
def listDel (keys : List String) (k : String) : List String :=
  keys.filter (fun x => !(x == k))

/-! `create_sandbox` (`sandbox_manager.py:51-130`). -/

/-- Outcomes of the external calls `create_sandbox` makes: the E2B
`SandboxSync` constructor (with the id and measured boot time it yields on
success), the generated uuid, the supabase insert, and the sink delivery
of the `sandbox_created` event.  `errMsg` is the message of the exception
raised by whichever external call failed. -/
structure CreateOracle where
  providerOk : Bool
  e2bId : String
  bootTimeMs : Nat
  internalId : String
  insertOk : Bool
  sinkOk : Bool
  errMsg : String
deriving Repr, DecidableEq

/-- The dict returned by a successful `create_sandbox`
(`sandbox_manager.py:119-126`). -/
structure CreateResultR where
  sandbox_id : String
  internal_id : String
  boot_time_ms : Nat
  template : String
  status : String
  expires_at : Nat
deriving Repr, DecidableEq

/-- Result, post-state and traces of one `create_sandbox` call. -/
structure CreateOutcome where
  result : PyResult CreateResultR
  state : ManagerState
  provider : List ProviderCall
  events : List (StreamCall × Bool)
deriving Repr, DecidableEq

/-- `create_sandbox`: quota check against the database, provider create,
row build and insert, in-memory registration, `sandbox_created` event.
Every exception is re-raised as `Sandbox creation failed: ...`
(`sandbox_manager.py:128-130`).  The TTL is the hard-coded one hour
(`timedelta(hours=1)`, line 90). -/
def create_sandbox (cfg : Config) (st : ManagerState) (user_id : String)
    (task_id : Option String) (template : Option String) (now : Nat)
    (o : CreateOracle) : CreateOutcome :=
  if cfg.max_sandboxes_per_user ≤ countRunning st.db user_id then
    { result := PyResult.error
        ("Sandbox creation failed: User has reached maximum sandbox limit ("
          ++ toString cfg.max_sandboxes_per_user ++ ")"),
      state := st, provider := [], events := [] }
  else
    let template_to_use := template.getD cfg.default_template
    if o.providerOk = false then
      { result := PyResult.error ("Sandbox creation failed: " ++ o.errMsg),
        state := st, provider := [ProviderCall.create template_to_use],
        events := [] }
    else
      let row : SandboxRow :=
        { internal_id := o.internalId, e2b_sandbox_id := o.e2bId,
          user_id := user_id, template := template_to_use,
          status := "running", boot_time_ms := o.bootTimeMs,
          last_activity_at := now, expires_at := now + 3600,
          created_at := now, task_id := task_id }
      if o.insertOk = false then
        { result := PyResult.error ("Sandbox creation failed: " ++ o.errMsg),
          state := st, provider := [ProviderCall.create template_to_use],
          events := [] }
      else
        { result := PyResult.ok
            { sandbox_id := o.e2bId, internal_id := o.internalId,
              boot_time_ms := o.bootTimeMs, template := template_to_use,
              status := "running", expires_at := now + 3600 },
          state :=
            { db := st.db ++ [row],
              active := dictInsertKey st.active o.e2bId,
              metadata := dictSet st.metadata o.e2bId row },
          provider := [ProviderCall.create template_to_use],
          events := [streamDeliver
            (StreamCall.sandboxEvent o.e2bId "sandbox_created") o.sinkOk] }

/-! `execute_code` (`sandbox_manager.py:132-226`) and its streaming helper
`_execute_with_streaming` (`sandbox_manager.py:228-271`). -/

/-- One line delivered by the provider to the `on_stdout` / `on_stderr`
callbacks; the list of these is the interleaved arrival order. -/
inductive OutLine where
  | out (line : String)
  | err (line : String)
deriving Repr, DecidableEq

/-- The result dict of an execution (`sandbox_manager.py:191-198` and
267-271); `execution_time_ms` is the key `execute_code` adds afterwards. -/
structure ExecResult where
  exit_code : Int
  stdout : String
  stderr : String
  execution_time_ms : Nat
deriving Repr, DecidableEq

/-- Outcomes of the external calls `execute_code` makes: the Security Gate
verdict for this code string, the provider call (its exit code, and either
the callback line deliveries when streaming or the buffered output when
not), the measured wall-clock time, and the sink delivery of the streamed
events. -/
structure ExecOracle where
  security : SecurityVerdict
  outputs : List OutLine
  stdoutStr : String
  stderrStr : String
  exit_code : Int
  execOk : Bool
  durationMs : Nat
  errMsg : String
  sinkOk : Bool
deriving Repr, DecidableEq

/-- The shell command built at `sandbox_manager.py:187` and 261. -/
def buildCmd (code : String) : String :=
  "python3 -c \"" ++ code.replace "\"" "\\\"" ++ "\""

/-- `_update_sandbox_activity` (`sandbox_manager.py:427-432`), lifted to
the manager state: a single database update of `last_activity_at`. -/
def update_sandbox_activity (st : ManagerState) (sandbox_id : String)
    (now : Nat) : ManagerState :=
  { st with db := updateActivity st.db sandbox_id now }

/-- The effect of the `on_stdout` / `on_stderr` callbacks
(`sandbox_manager.py:241-257`) over a delivery sequence: each stdout line
is appended to `stdout_lines` and immediately streamed as a `stdout` log
event, each stderr line likewise.  Returns
(`stdout_lines`, `stderr_lines`, stream events in arrival order). -/
def runCallbacks (sid : String) (task_id : Option String) (sinkOk : Bool) :
    List OutLine → List String × List String × List (StreamCall × Bool)
  | [] => ([], [], [])
  | OutLine.out l :: rest =>
      let r := runCallbacks sid task_id sinkOk rest
      (l :: r.1, r.2.1,
        streamDeliver (StreamCall.log sid "stdout" l task_id) sinkOk :: r.2.2)
  | OutLine.err l :: rest =>
      let r := runCallbacks sid task_id sinkOk rest
      (r.1, l :: r.2.1,
        streamDeliver (StreamCall.log sid "stderr" l task_id) sinkOk :: r.2.2)

/-- `_execute_with_streaming`: start the process with line callbacks, then
return the buffered result with `stdout` / `stderr` the newline-join of
the buffered lines (`sandbox_manager.py:259-271`).  Returns the result (or
the raised provider error), the provider trace and the stream events. -/
def execute_with_streaming (timeout : Nat) (sid code : String)
    (task_id : Option String) (o : ExecOracle) :
    PyResult ExecResult × List ProviderCall × List (StreamCall × Bool) :=
  let cb := runCallbacks sid task_id o.sinkOk o.outputs
  let provider := [ProviderCall.processStart sid (buildCmd code) timeout]
  if o.execOk = false then
    (PyResult.error o.errMsg, provider, cb.2.2)
  else
    (PyResult.ok
      { exit_code := o.exit_code,
        stdout := String.intercalate "\n" cb.1,
        stderr := String.intercalate "\n" cb.2.1,
        execution_time_ms := 0 },
     provider, cb.2.2)

/-- Result, post-state and traces of one `execute_code` call. -/
structure ExecOutcome where
  result : PyResult ExecResult
  state : ManagerState
  provider : List ProviderCall
  events : List (StreamCall × Bool)
deriving Repr, DecidableEq

/-- `execute_code`: registry lookup, Security Gate, activity refresh,
provider invocation (streaming or buffered), completion / error event.
Exceptions are re-raised as `Code execution failed: ...`
(`sandbox_manager.py:213-226`). -/
def execute_code (cfg : Config) (st : ManagerState) (sandbox_id code : String)
    (task_id : Option String) (stream_output : Bool) (now : Nat)
    (o : ExecOracle) : ExecOutcome :=
  if sandbox_id ∉ st.active then
    { result := PyResult.error
        ("Sandbox " ++ sandbox_id ++ " not found or inactive"),
      state := st, provider := [], events := [] }
  else if o.security.is_safe = false then
    let error_msg := "Code security validation failed: " ++ o.security.reason
    { result := PyResult.error error_msg, state := st, provider := [],
      events :=
        if stream_output then
          [streamDeliver
            (StreamCall.log sandbox_id "security_warning" error_msg task_id)
            o.sinkOk]
        else [] }
  else
    let st1 := update_sandbox_activity st sandbox_id now
    let startEvents : List (StreamCall × Bool) :=
      if stream_output then
        [streamDeliver
          (StreamCall.log sandbox_id "code_execution_start"
            ("Executing code:\n" ++ code) task_id) o.sinkOk]
      else []
    if stream_output then
      let r := execute_with_streaming cfg.max_execution_time sandbox_id code
        task_id o
      match r.1 with
      | PyResult.error msg =>
          let error_msg := "Code execution failed: " ++ msg
          { result := PyResult.error error_msg, state := st1,
            provider := r.2.1,
            events := startEvents ++ r.2.2 ++
              [streamDeliver
                (StreamCall.log sandbox_id "code_execution_error" error_msg
                  task_id) o.sinkOk] }
      | PyResult.ok res =>
          let res2 := { res with execution_time_ms := o.durationMs }
          { result := PyResult.ok res2, state := st1, provider := r.2.1,
            events := startEvents ++ r.2.2 ++
              [streamDeliver
                (StreamCall.log sandbox_id "code_execution_complete"
                  ("Execution completed in " ++ toString o.durationMs ++
                    "ms (exit code: " ++ toString res.exit_code ++ ")")
                  task_id) o.sinkOk] }
    else
      if o.execOk = false then
        { result := PyResult.error ("Code execution failed: " ++ o.errMsg),
          state := st1,
          provider := [ProviderCall.processStart sandbox_id (buildCmd code)
            cfg.max_execution_time],
          events := startEvents }
      else
        { result := PyResult.ok
            { exit_code := o.exit_code, stdout := o.stdoutStr,
              stderr := o.stderrStr, execution_time_ms := o.durationMs },
          state := st1,
          provider := [ProviderCall.processStart sandbox_id (buildCmd code)
            cfg.max_execution_time],
          events := startEvents }

/-! `destroy_sandbox` (`sandbox_manager.py:362-394`) and
`cleanup_expired_sandboxes` (`sandbox_manager.py:396-416`). -/

/-- Outcomes of the external calls `destroy_sandbox` makes: the provider
`close`, the supabase status update, and the sink delivery of the
`sandbox_destroyed` event. -/
structure DestroyOracle where
  closeOk : Bool
  updateOk : Bool
  sinkOk : Bool
deriving Repr, DecidableEq

/-- Result, post-state and traces of one `destroy_sandbox` call; the
result is a plain Bool because the method catches every exception and
returns False (`sandbox_manager.py:392-394`). -/
structure DestroyOutcome where
  result : Bool
  state : ManagerState
  provider : List ProviderCall
  events : List (StreamCall × Bool)
deriving Repr, DecidableEq

/-- `destroy_sandbox`: close the handle and drop it from the dicts when
present, mark the database row `stopped`, stream `sandbox_destroyed`,
return True; on any exception return False with whatever mutations already
happened kept. -/
def destroy_sandbox (st : ManagerState) (sandbox_id : String) (now : Nat)
    (o : DestroyOracle) : DestroyOutcome :=
  if sandbox_id ∈ st.active then
    if o.closeOk = false then
      { result := false, state := st,
        provider := [ProviderCall.close sandbox_id], events := [] }
    else
      let st1 : ManagerState :=
        { st with active := listDel st.active sandbox_id,
                  metadata := dictDel st.metadata sandbox_id }
      if o.updateOk = false then
        { result := false, state := st1,
          provider := [ProviderCall.close sandbox_id], events := [] }
      else
        { result := true,
          state := { st1 with db := updateStopped st1.db sandbox_id now },
          provider := [ProviderCall.close sandbox_id],
          events := [streamDeliver
            (StreamCall.sandboxEvent sandbox_id "sandbox_destroyed")
            o.sinkOk] }
  else
    let st1 : ManagerState := { st with metadata := dictDel st.metadata sandbox_id }
    if o.updateOk = false then
      { result := false, state := st1, provider := [], events := [] }
    else
      { result := true,
        state := { st1 with db := updateStopped st1.db sandbox_id now },
        provider := [],
        events := [streamDeliver
          (StreamCall.sandboxEvent sandbox_id "sandbox_destroyed")
          o.sinkOk] }

/-- Result, post-state and traces of a cleanup sweep. -/
structure SweepOutcome where
  count : Nat
  state : ManagerState
  provider : List ProviderCall
  events : List (StreamCall × Bool)
deriving Repr, DecidableEq

/-- The `for` loop of `cleanup_expired_sandboxes`: destroy each selected
id in order, counting the calls that returned True; a False result does
not stop the loop.  `ors` gives the external-call outcomes for each id. -/
def sweepLoop (ors : String → DestroyOracle) (now : Nat) :
    List String → ManagerState → SweepOutcome
  | [], st => { count := 0, state := st, provider := [], events := [] }
  | sid :: rest, st =>
      let d := destroy_sandbox st sid now (ors sid)
      let r := sweepLoop ors now rest d.state
      { count := (if d.result then 1 else 0) + r.count,
        state := r.state,
        provider := d.provider ++ r.provider,
        events := d.events ++ r.events }

/-- `cleanup_expired_sandboxes`: select the running rows already past
their `expires_at` (strict `.lt`), destroy each, return how many destroys
returned True; if the select itself raises, the outer handler returns 0. -/
def cleanup_expired_sandboxes (st : ManagerState) (now : Nat)
    (selectOk : Bool) (ors : String → DestroyOracle) : SweepOutcome :=
  if selectOk = false then
    { count := 0, state := st, provider := [], events := [] }
  else
    sweepLoop ors now
      ((selectExpiredRunning st.db now).map (fun r => r.e2b_sandbox_id)) st

/-! The real-time test streaming plugin
(`src/agent/tests/plugins/realtime_streaming.py`). -/

/-- A `TestEvent` dataclass (`realtime_streaming.py:25-39`), without the
wall-clock timestamp. -/
structure TestEvent where
  event_type : String
  test_id : String
  test_name : String
  duration : Option Rat
  error : Option String
  category : String
deriving Repr, DecidableEq

/-- The row `stream_event` inserts into the `logs` table
(`realtime_streaming.py:96-102`), reduced to the fields the claims are
about. -/
structure LogEntry where
  level : String
  message : String
  source : String
deriving Repr, DecidableEq

/-- The supabase insert inside `stream_event`: succeeds or raises. -/
def sinkInsert (insertOk : Bool) (entry : LogEntry) : PyResult LogEntry :=
  if insertOk then PyResult.ok entry else PyResult.error "sink failure"

/-- `RealtimeTestStreamer.stream_event` (`realtime_streaming.py:85-111`):
no-op without a client; otherwise try the sink insert and swallow any
exception, so the call always returns normally.  Returns the inserted row
when delivery happened. -/
def stream_event (hasSupabase insertOk : Bool) (event : TestEvent) :
    PyResult (Option LogEntry) :=
  if hasSupabase = false then PyResult.ok none
  else
    let entry : LogEntry :=
      { level := "info",
        message := "Test " ++ event.event_type ++ ": " ++ event.test_name,
        source := "test" }
    match sinkInsert insertOk entry with
    | PyResult.ok e => PyResult.ok (some e)
    | PyResult.error _ => PyResult.ok none

/-- The summary `end_session` computes (`realtime_streaming.py:138-187`):
the log level, the `coverage_met` flag compared against the hard-coded
threshold 80, and the success rate. -/
structure SessionSummary where
  level : String
  passed : Nat
  failed : Nat
  skipped : Nat
  coverage : Rat
  success_rate : Rat
  coverage_met : Bool
deriving Repr, DecidableEq

/-- `RealtimeTestStreamer.end_session`: summary with
`coverage_met = (coverage >= 80)` and level `info` / `error` accordingly. -/
def end_session (passed failed skipped : Nat) (coverage : Rat) :
    SessionSummary :=
  let total := passed + failed + skipped
  let success_rate : Rat :=
    if 0 < total then (passed : Rat) / (total : Rat) * 100 else 0
  { level := if 80 ≤ coverage then "info" else "error",
    passed := passed, failed := failed, skipped := skipped,
    coverage := coverage, success_rate := success_rate,
    coverage_met := decide (80 ≤ coverage) }

/-- The enforcement block at the end of `pytest_sessionfinish`
(`realtime_streaming.py:300-305`): with coverage below 80 the session's
`testsfailed` counter is incremented, forcing the run to fail. -/
def enforce_coverage_gate (coverage : Rat) (testsfailed : Nat) : Nat :=
  if coverage < 80 then testsfailed + 1 else testsfailed

/-- `pytest_sessionfinish` (`realtime_streaming.py:284-305`): counts the
stored outcomes, uses the placeholder coverage 85.0, calls `end_session`
and applies the coverage gate to `session.testsfailed`. -/
def pytest_sessionfinish (results : List String) (testsfailed : Nat) :
    SessionSummary × Nat :=
  let passed := (results.filter (fun r => r == "passed")).length
  let failed := (results.filter (fun r => r == "failed")).length
  let skipped := (results.filter (fun r => r == "skipped")).length
  let coverage : Rat := 85
  (end_session passed failed skipped coverage,
   enforce_coverage_gate coverage testsfailed)

/-! Theorems. -/

/-- C1: when the Security Gate rejects the code (`is_safe = false`),
`execute_code` never invokes the provider for that request (the provider
trace is empty), never returns normally (the rejection is not silently
ignored), and on an active sandbox it raises exactly the policy-violation
error built from the gate's reason. -/
theorem executeCode_rejected_no_provider_call
    (cfg : Config) (st : ManagerState) (sandbox_id code : String)
    (task_id : Option String) (stream_output : Bool) (now : Nat)
    (o : ExecOracle) (hrej : o.security.is_safe = false) :
    (execute_code cfg st sandbox_id code task_id stream_output now o).provider
      = [] ∧
    (execute_code cfg st sandbox_id code task_id stream_output now o).result.isOk
      = false ∧
    (sandbox_id ∈ st.active →
      (execute_code cfg st sandbox_id code task_id stream_output now o).result
        = PyResult.error
            ("Code security validation failed: " ++ o.security.reason)) := by
  by_cases hmem : sandbox_id ∈ st.active
  · simp [execute_code, hmem, hrej, PyResult.isOk]
  · simp [execute_code, hmem, hrej, PyResult.isOk]

/-- C1 witness: a concrete rejected execution on an active sandbox. -/
theorem executeCode_rejected_no_provider_call_witness :
    (execute_code ⟨"Python3", 300, 3⟩ ⟨[], ["sb1"], []⟩ "sb1" "import os"
        none true 50
        ⟨⟨false, "dangerous import"⟩, [], "", "", 0, true, 7, "", true⟩).provider
      = [] ∧
    (execute_code ⟨"Python3", 300, 3⟩ ⟨[], ["sb1"], []⟩ "sb1" "import os"
        none true 50
        ⟨⟨false, "dangerous import"⟩, [], "", "", 0, true, 7, "", true⟩).result.isOk
      = false ∧
    ("sb1" ∈ (⟨[], ["sb1"], []⟩ : ManagerState).active →
      (execute_code ⟨"Python3", 300, 3⟩ ⟨[], ["sb1"], []⟩ "sb1" "import os"
          none true 50
          ⟨⟨false, "dangerous import"⟩, [], "", "", 0, true, 7, "", true⟩).result
        = PyResult.error
            ("Code security validation failed: " ++ "dangerous import")) :=
  executeCode_rejected_no_provider_call _ _ _ _ _ _ _ _ rfl

/-- C2: with the owner's count of running sandboxes at or above
`max_sandboxes_per_user`, `create_sandbox` fails with the quota error and
has no side effects: the state (database, active dict, metadata) is
unchanged, no provider sandbox is created, and no event is emitted. -/
theorem createSandbox_quota_exceeded_no_side_effects
    (cfg : Config) (st : ManagerState) (user_id : String)
    (task_id template : Option String) (now : Nat) (o : CreateOracle)
    (h : cfg.max_sandboxes_per_user ≤ countRunning st.db user_id) :
    (create_sandbox cfg st user_id task_id template now o).result
      = PyResult.error
          ("Sandbox creation failed: User has reached maximum sandbox limit ("
            ++ toString cfg.max_sandboxes_per_user ++ ")") ∧
    (create_sandbox cfg st user_id task_id template now o).state = st ∧
    (create_sandbox cfg st user_id task_id template now o).provider = [] ∧
    (create_sandbox cfg st user_id task_id template now o).events = [] := by
  simp [create_sandbox, h]

/-- C2 witness: a concrete owner `u1` at the cap 1. -/
theorem createSandbox_quota_exceeded_no_side_effects_witness :
    (create_sandbox ⟨"Python3", 300, 1⟩
        ⟨[⟨"i1", "e1", "u1", "Python3", "running", 5, 10, 3610, 10, none⟩],
          ["e1"], []⟩
        "u1" none none 100
        ⟨true, "e2", 4, "i2", true, true, "boom"⟩).result
      = PyResult.error
          ("Sandbox creation failed: User has reached maximum sandbox limit ("
            ++ toString 1 ++ ")") ∧
    (create_sandbox ⟨"Python3", 300, 1⟩
        ⟨[⟨"i1", "e1", "u1", "Python3", "running", 5, 10, 3610, 10, none⟩],
          ["e1"], []⟩
        "u1" none none 100
        ⟨true, "e2", 4, "i2", true, true, "boom"⟩).state
      = ⟨[⟨"i1", "e1", "u1", "Python3", "running", 5, 10, 3610, 10, none⟩],
          ["e1"], []⟩ ∧
    (create_sandbox ⟨"Python3", 300, 1⟩
        ⟨[⟨"i1", "e1", "u1", "Python3", "running", 5, 10, 3610, 10, none⟩],
          ["e1"], []⟩
        "u1" none none 100
        ⟨true, "e2", 4, "i2", true, true, "boom"⟩).provider = [] ∧
    (create_sandbox ⟨"Python3", 300, 1⟩
        ⟨[⟨"i1", "e1", "u1", "Python3", "running", 5, 10, 3610, 10, none⟩],
          ["e1"], []⟩
        "u1" none none 100
        ⟨true, "e2", 4, "i2", true, true, "boom"⟩).events = [] :=
  createSandbox_quota_exceeded_no_side_effects _ _ _ _ _ _ _ (by decide)

/-- C3: if the provider create or the database insert raises,
`create_sandbox` is all-or-nothing: the caller receives an error, the
manager state (database, active dict, metadata dict) is exactly the prior
one, and no `sandbox_created` event is emitted. -/
theorem createSandbox_failure_all_or_nothing
    (cfg : Config) (st : ManagerState) (user_id : String)
    (task_id template : Option String) (now : Nat) (o : CreateOracle)
    (h : o.providerOk = false ∨ o.insertOk = false) :
    (create_sandbox cfg st user_id task_id template now o).result.isOk
      = false ∧
    (create_sandbox cfg st user_id task_id template now o).state = st ∧
    (create_sandbox cfg st user_id task_id template now o).events = [] := by
  by_cases hq : cfg.max_sandboxes_per_user ≤ countRunning st.db user_id
  · simp [create_sandbox, hq, PyResult.isOk]
  · by_cases hp : o.providerOk = false
    · simp [create_sandbox, hq, hp, PyResult.isOk]
    · have hi : o.insertOk = false := by
        rcases h with h | h
        · exact absurd h hp
        · exact h
      simp [create_sandbox, hq, hp, hi, PyResult.isOk]

/-- C3 witness: a concrete creation whose database insert raises. -/
theorem createSandbox_failure_all_or_nothing_witness :
    (create_sandbox ⟨"Python3", 300, 3⟩ ⟨[], [], []⟩ "u1" none none 100
        ⟨true, "e2", 4, "i2", false, true, "db down"⟩).result.isOk = false ∧
    (create_sandbox ⟨"Python3", 300, 3⟩ ⟨[], [], []⟩ "u1" none none 100
        ⟨true, "e2", 4, "i2", false, true, "db down"⟩).state
      = ⟨[], [], []⟩ ∧
    (create_sandbox ⟨"Python3", 300, 3⟩ ⟨[], [], []⟩ "u1" none none 100
        ⟨true, "e2", 4, "i2", false, true, "db down"⟩).events = [] :=
  createSandbox_failure_all_or_nothing _ _ _ _ _ _ _ (Or.inr rfl)

/-- C4: observed behavior of `destroy_sandbox` at concrete inputs, with
the database update and event emission succeeding.  A call on an id that
was never created returns True (no provider close); the first call on a
live sandbox returns True and closes the handle exactly once; the repeated
call on the now-destroyed id ALSO returns True with no further close,
because for ids absent from `active_sandboxes` the method still runs the
database update, streams the event and returns True.  The repository's own
unit test `test_terminate_sandbox_not_found` expects False for an unknown
id. -/
theorem destroySandbox_unknown_and_repeat_return_true :
    (destroy_sandbox ⟨[], [], []⟩ "ghost" 100 ⟨true, true, true⟩).result
      = true ∧
    (destroy_sandbox ⟨[], [], []⟩ "ghost" 100 ⟨true, true, true⟩).provider
      = [] ∧
    (destroy_sandbox
        ⟨[⟨"i1", "e1", "u1", "Python3", "running", 5, 10, 3610, 10, none⟩],
          ["e1"],
          [("e1", ⟨"i1", "e1", "u1", "Python3", "running", 5, 10, 3610, 10,
            none⟩)]⟩
        "e1" 100 ⟨true, true, true⟩).result = true ∧
    (destroy_sandbox
        ⟨[⟨"i1", "e1", "u1", "Python3", "running", 5, 10, 3610, 10, none⟩],
          ["e1"],
          [("e1", ⟨"i1", "e1", "u1", "Python3", "running", 5, 10, 3610, 10,
            none⟩)]⟩
        "e1" 100 ⟨true, true, true⟩).provider = [ProviderCall.close "e1"] ∧
    (destroy_sandbox
        (destroy_sandbox
          ⟨[⟨"i1", "e1", "u1", "Python3", "running", 5, 10, 3610, 10, none⟩],
            ["e1"],
            [("e1", ⟨"i1", "e1", "u1", "Python3", "running", 5, 10, 3610, 10,
              none⟩)]⟩
          "e1" 100 ⟨true, true, true⟩).state
        "e1" 101 ⟨true, true, true⟩).result = true ∧
    (destroy_sandbox
        (destroy_sandbox
          ⟨[⟨"i1", "e1", "u1", "Python3", "running", 5, 10, 3610, 10, none⟩],
            ["e1"],
            [("e1", ⟨"i1", "e1", "u1", "Python3", "running", 5, 10, 3610, 10,
              none⟩)]⟩
          "e1" 100 ⟨true, true, true⟩).state
        "e1" 101 ⟨true, true, true⟩).provider = [] :=
  ⟨rfl, rfl, rfl, rfl, rfl, rfl⟩

/-- C5: observed behavior of a successful `execute_code` at a concrete
input: the call returns its result, and the only change to the manager's
stored state is the row's `last_activity_at` timestamp (10 to 50).  No
usage counter exists anywhere in the state the manager writes — the row
schema built by `create_sandbox` has no `commandsExecuted` /
`totalExecutionSeconds` fields and `execute_code` performs no other
update — while the repository's unit tests
(`test_execute_command_success`) expect a `commands_executed` counter to
increment on each execution. -/
theorem executeCode_no_usage_counter_update :
    (execute_code ⟨"Python3", 300, 3⟩
        ⟨[⟨"i1", "e1", "u1", "Python3", "running", 5, 10, 3610, 10, none⟩],
          ["e1"],
          [("e1", ⟨"i1", "e1", "u1", "Python3", "running", 5, 10, 3610, 10,
            none⟩)]⟩
        "e1" "print(1)" none false 50
        ⟨⟨true, ""⟩, [], "ok", "", 0, true, 7, "", true⟩).result
      = PyResult.ok ⟨0, "ok", "", 7⟩ ∧
    (execute_code ⟨"Python3", 300, 3⟩
        ⟨[⟨"i1", "e1", "u1", "Python3", "running", 5, 10, 3610, 10, none⟩],
          ["e1"],
          [("e1", ⟨"i1", "e1", "u1", "Python3", "running", 5, 10, 3610, 10,
            none⟩)]⟩
        "e1" "print(1)" none false 50
        ⟨⟨true, ""⟩, [], "ok", "", 0, true, 7, "", true⟩).state
      = ⟨[⟨"i1", "e1", "u1", "Python3", "running", 5, 50, 3610, 10, none⟩],
          ["e1"],
          [("e1", ⟨"i1", "e1", "u1", "Python3", "running", 5, 10, 3610, 10,
            none⟩)]⟩ :=
  ⟨rfl, rfl⟩

/-- Per-stream buffers of `runCallbacks` do not depend on whether the sink
accepts the streamed events. -/
theorem runCallbacks_buffers_sink_indep (sid : String)
    (task_id : Option String) (b b' : Bool) (outs : List OutLine) :
    (runCallbacks sid task_id b outs).1 = (runCallbacks sid task_id b' outs).1 ∧
    (runCallbacks sid task_id b outs).2.1
      = (runCallbacks sid task_id b' outs).2.1 := by
  induction outs with
  | nil => exact ⟨rfl, rfl⟩
  | cons x rest ih =>
    cases x <;> simp [runCallbacks, ih.1, ih.2]

/-- C6: event emission is best-effort and never propagates failure into
the caller: `stream_event` returns normally for every sink outcome (the
sink exception is caught and discarded), and the result `execute_code`
returns is identical whether or not the sink accepts any of the streamed
events. -/
theorem emission_best_effort_never_raises :
    (∀ (hasSupabase insertOk : Bool) (event : TestEvent),
        (stream_event hasSupabase insertOk event).isOk = true) ∧
    (∀ (cfg : Config) (st : ManagerState) (sid code : String)
        (task_id : Option String) (stream_output : Bool) (now : Nat)
        (o : ExecOracle) (b : Bool),
        (execute_code cfg st sid code task_id stream_output now o).result
          = (execute_code cfg st sid code task_id stream_output now
              { o with sinkOk := b }).result) := by
  constructor
  · intro hs iOk ev
    by_cases h1 : hs <;> by_cases h2 : iOk <;>
      simp [stream_event, sinkInsert, h1, h2, PyResult.isOk]
  · intro cfg st sid code task_id stream_output now o b
    by_cases hmem : sid ∈ st.active
    · by_cases hsafe : o.security.is_safe = false
      · simp [execute_code, hmem, hsafe]
      · by_cases hso : stream_output
        · have hb := runCallbacks_buffers_sink_indep sid task_id o.sinkOk b
            o.outputs
          by_cases hex : o.execOk = false
          · simp [execute_code, execute_with_streaming, hmem, hsafe, hso, hex]
          · simp [execute_code, execute_with_streaming, hmem, hsafe, hso,
              hex, hb.1, hb.2]
        · by_cases hex : o.execOk = false <;>
            simp [execute_code, hmem, hsafe, hso, hex]
    · simp [execute_code, hmem]

/-- C8: the Test-Run Streamer's coverage gate: with coverage below the
threshold 80 a session end with zero failed tests is still reported failed
(`coverage_met` false, level `error`, and the enforcement block forces
`session.testsfailed` positive); with coverage at or above 80 and no
failed tests the run is reported as success (`coverage_met` true, level
`info`, `testsfailed` stays 0). -/
theorem coverage_gate_reports
    (passed skipped testsfailed : Nat) (coverage : Rat) :
    (coverage < 80 →
      (end_session passed 0 skipped coverage).coverage_met = false ∧
      (end_session passed 0 skipped coverage).level = "error" ∧
      0 < enforce_coverage_gate coverage testsfailed) ∧
    (80 ≤ coverage →
      (end_session passed 0 skipped coverage).coverage_met = true ∧
      (end_session passed 0 skipped coverage).level = "info" ∧
      enforce_coverage_gate coverage 0 = 0) := by
  constructor
  · intro h
    have h' : ¬ (80 ≤ coverage) := not_le.mpr h
    refine ⟨?_, ?_, ?_⟩ <;>
      simp [end_session, enforce_coverage_gate, h, h']
  · intro h
    have h' : ¬ (coverage < 80) := not_lt.mpr h
    refine ⟨?_, ?_, ?_⟩ <;>
      simp [end_session, enforce_coverage_gate, h, h']

/-- C8 witness: the spec's two examples, `end(10, 0, 0, 75.0)` reported
failed despite zero test failures and `end(8, 0, 2, 85.0)` reported
success. -/
theorem coverage_gate_reports_witness :
    ((end_session 10 0 0 75).coverage_met = false ∧
      (end_session 10 0 0 75).level = "error" ∧
      0 < enforce_coverage_gate 75 0) ∧
    ((end_session 8 0 2 85).coverage_met = true ∧
      (end_session 8 0 2 85).level = "info" ∧
      enforce_coverage_gate 85 0 = 0) :=
  ⟨(coverage_gate_reports 10 0 0 75).1 (by norm_num),
   (coverage_gate_reports 8 2 0 85).2 (by norm_num)⟩

/-- A row with its activity timestamp cleared; two lists of rows with equal
`eraseActivity` images differ at most in `last_activity_at`. -/
def eraseActivity (r : SandboxRow) : SandboxRow :=
  { r with last_activity_at := 0 }

/-- `updateActivity` changes nothing besides `last_activity_at`. -/
theorem updateActivity_erase (db : List SandboxRow) (sid : String)
    (now : Nat) :
    (updateActivity db sid now).map eraseActivity = db.map eraseActivity := by
  unfold updateActivity
  rw [List.map_map]
  apply List.map_congr_left
  intro r _
  by_cases h : r.e2b_sandbox_id == sid <;> simp [Function.comp, h, eraseActivity]

/-- `updateActivity` preserves every row's `expires_at`. -/
theorem updateActivity_expires (db : List SandboxRow) (sid : String)
    (now : Nat) :
    (updateActivity db sid now).map (fun r => r.expires_at)
      = db.map (fun r => r.expires_at) := by
  unfold updateActivity
  rw [List.map_map]
  apply List.map_congr_left
  intro r _
  by_cases h : r.e2b_sandbox_id == sid <;> simp [Function.comp, h]

/-- C9: activity refresh is frame-limited.  `create_sandbox` either leaves
the table unchanged or appends one row whose `expires_at` is fixed at
creation as `created_at + 3600` (the one-hour TTL); the activity update
(`_update_sandbox_activity`) changes only `last_activity_at`; and a whole
`execute_code` call changes nothing in the stored rows besides
`last_activity_at` — in particular every row's `expires_at` is exactly the
value fixed at creation, never extended by activity. -/
theorem activity_refresh_frame :
    (∀ (cfg : Config) (st : ManagerState) (user_id : String)
        (task_id template : Option String) (now : Nat) (o : CreateOracle),
        (create_sandbox cfg st user_id task_id template now o).state.db
            = st.db ∨
        ∃ row,
          (create_sandbox cfg st user_id task_id template now o).state.db
              = st.db ++ [row] ∧
          row.expires_at = row.created_at + 3600 ∧ row.created_at = now) ∧
    (∀ (st : ManagerState) (sid : String) (now : Nat),
        (update_sandbox_activity st sid now).db.map eraseActivity
          = st.db.map eraseActivity) ∧
    (∀ (cfg : Config) (st : ManagerState) (sid code : String)
        (task_id : Option String) (stream_output : Bool) (now : Nat)
        (o : ExecOracle),
        (execute_code cfg st sid code task_id stream_output now o).state.db.map
            eraseActivity = st.db.map eraseActivity ∧
        (execute_code cfg st sid code task_id stream_output now o).state.db.map
            (fun r => r.expires_at) = st.db.map (fun r => r.expires_at)) := by
  refine ⟨?_, ?_, ?_⟩
  · intro cfg st user_id task_id template now o
    by_cases hq : cfg.max_sandboxes_per_user ≤ countRunning st.db user_id
    · left; simp [create_sandbox, hq]
    · by_cases hp : o.providerOk = false
      · left; simp [create_sandbox, hq, hp]
      · by_cases hi : o.insertOk = false
        · left; simp [create_sandbox, hq, hp, hi]
        · right
          refine ⟨{ internal_id := o.internalId,
                    e2b_sandbox_id := o.e2bId,
                    user_id := user_id,
                    template := template.getD cfg.default_template,
                    status := "running",
                    boot_time_ms := o.bootTimeMs,
                    last_activity_at := now,
                    expires_at := now + 3600,
                    created_at := now,
                    task_id := task_id }, ?_, rfl, rfl⟩
          simp [create_sandbox, hq, hp, hi]
  · intro st sid now
    exact updateActivity_erase st.db sid now
  · intro cfg st sid code task_id stream_output now o
    by_cases hmem : sid ∈ st.active
    · by_cases hsafe : o.security.is_safe = false
      · simp [execute_code, hmem, hsafe]
      · by_cases hso : stream_output
        · by_cases hex : o.execOk = false <;>
            simp [execute_code, execute_with_streaming, update_sandbox_activity,
              hmem, hsafe, hso, hex, updateActivity_erase, updateActivity_expires]
        · by_cases hex : o.execOk = false <;>
            simp [execute_code, update_sandbox_activity, hmem, hsafe, hso, hex,
              updateActivity_erase, updateActivity_expires]
    · simp [execute_code, hmem]

/-- Lines delivered to the `on_stdout` callback, in arrival order. -/
def stdoutLines : List OutLine → List String
  | [] => []
  | OutLine.out l :: rest => l :: stdoutLines rest
  | OutLine.err _ :: rest => stdoutLines rest

/-- Lines delivered to the `on_stderr` callback, in arrival order. -/
def stderrLines : List OutLine → List String
  | [] => []
  | OutLine.out _ :: rest => stderrLines rest
  | OutLine.err l :: rest => l :: stderrLines rest

/-- The line carried by a streamed `stdout` log event, if any. -/
def stdoutEventLine : StreamCall × Bool → Option String
  | (StreamCall.log _ t l _, _) => if t == "stdout" then some l else none
  | _ => none

/-- The line carried by a streamed `stderr` log event, if any. -/
def stderrEventLine : StreamCall × Bool → Option String
  | (StreamCall.log _ t l _, _) => if t == "stderr" then some l else none
  | _ => none

/-- The callback run buffers exactly the per-stream lines, and the stream
events carry exactly those lines in the same order. -/
theorem runCallbacks_spec (sid : String) (task_id : Option String)
    (b : Bool) (outs : List OutLine) :
    (runCallbacks sid task_id b outs).1 = stdoutLines outs ∧
    (runCallbacks sid task_id b outs).2.1 = stderrLines outs ∧
    (runCallbacks sid task_id b outs).2.2.filterMap stdoutEventLine
      = stdoutLines outs ∧
    (runCallbacks sid task_id b outs).2.2.filterMap stderrEventLine
      = stderrLines outs := by
  induction outs with
  | nil => exact ⟨rfl, rfl, rfl, rfl⟩
  | cons x rest ih =>
    cases x <;>
      simp [runCallbacks, stdoutLines, stderrLines, stdoutEventLine,
        stderrEventLine, streamDeliver, ih.1, ih.2.1, ih.2.2.1, ih.2.2.2]

/-- C10: for every streamed execution whose provider call returns, the
buffered result and the streamed line events agree: the result's `stdout`
(resp. `stderr`) is the newline-join of exactly the lines delivered to the
stdout (resp. stderr) callback in arrival order, and those are exactly the
lines carried by the emitted `stdout` (resp. `stderr`) events in emission
order. -/
theorem streaming_buffer_and_events_agree
    (timeout : Nat) (sid code : String) (task_id : Option String)
    (o : ExecOracle) (hok : o.execOk = true) :
    (execute_with_streaming timeout sid code task_id o).1
      = PyResult.ok
          { exit_code := o.exit_code,
            stdout := String.intercalate "\n" (stdoutLines o.outputs),
            stderr := String.intercalate "\n" (stderrLines o.outputs),
            execution_time_ms := 0 } ∧
    (execute_with_streaming timeout sid code task_id o).2.2.filterMap
        stdoutEventLine = stdoutLines o.outputs ∧
    (execute_with_streaming timeout sid code task_id o).2.2.filterMap
        stderrEventLine = stderrLines o.outputs := by
  have h := runCallbacks_spec sid task_id o.sinkOk o.outputs
  refine ⟨?_, ?_, ?_⟩ <;>
    simp [execute_with_streaming, hok, h.1, h.2.1, h.2.2.1, h.2.2.2]

/-- C10 witness: a concrete interleaved delivery. -/
theorem streaming_buffer_and_events_agree_witness :
    (execute_with_streaming 300 "sb1" "print(1)" none
        ⟨⟨true, ""⟩, [OutLine.out "line1", OutLine.err "warn",
          OutLine.out "line2"], "", "", 0, true, 7, "", true⟩).1
      = PyResult.ok
          { exit_code := 0,
            stdout := String.intercalate "\n"
              (stdoutLines [OutLine.out "line1", OutLine.err "warn",
                OutLine.out "line2"]),
            stderr := String.intercalate "\n"
              (stderrLines [OutLine.out "line1", OutLine.err "warn",
                OutLine.out "line2"]),
            execution_time_ms := 0 } ∧
    (execute_with_streaming 300 "sb1" "print(1)" none
        ⟨⟨true, ""⟩, [OutLine.out "line1", OutLine.err "warn",
          OutLine.out "line2"], "", "", 0, true, 7, "", true⟩).2.2.filterMap
        stdoutEventLine
      = stdoutLines [OutLine.out "line1", OutLine.err "warn",
          OutLine.out "line2"] ∧
    (execute_with_streaming 300 "sb1" "print(1)" none
        ⟨⟨true, ""⟩, [OutLine.out "line1", OutLine.err "warn",
          OutLine.out "line2"], "", "", 0, true, 7, "", true⟩).2.2.filterMap
        stderrEventLine
      = stderrLines [OutLine.out "line1", OutLine.err "warn",
          OutLine.out "line2"] :=
  streaming_buffer_and_events_agree 300 "sb1" "print(1)" none _ rfl

/-- C7 counterexample: at a concrete database with a Running row `a`
whose `expires_at` equals `now` (so the claim selects it, but the strict
`.lt` select does not) and a selected row `b` whose per-id database update
raises (so `b` is still `running` after the sweep although the claim says
every selected id ends Terminated), the claimed property is false. -/
theorem cleanup_expired_claim_counterexample :
    ¬ ((∀ r ∈ [(⟨"iA", "a", "u1", "Python3", "running", 1, 1, 5, 1, none⟩ :
            SandboxRow),
          ⟨"iB", "b", "u1", "Python3", "running", 1, 1, 3, 1, none⟩],
          (r ∈ selectExpiredRunning
              [⟨"iA", "a", "u1", "Python3", "running", 1, 1, 5, 1, none⟩,
                ⟨"iB", "b", "u1", "Python3", "running", 1, 1, 3, 1, none⟩] 5
            ↔ (r.expires_at ≤ 5 ∧ r.status = "running"))) ∧
      (∀ r ∈ (cleanup_expired_sandboxes
            ⟨[⟨"iA", "a", "u1", "Python3", "running", 1, 1, 5, 1, none⟩,
                ⟨"iB", "b", "u1", "Python3", "running", 1, 1, 3, 1, none⟩],
              ["a", "b"], []⟩ 5 true
            (fun sid => if sid == "b" then ⟨true, false, true⟩
              else ⟨true, true, true⟩)).state.db,
          r.e2b_sandbox_id ∈ (selectExpiredRunning
              [⟨"iA", "a", "u1", "Python3", "running", 1, 1, 5, 1, none⟩,
                ⟨"iB", "b", "u1", "Python3", "running", 1, 1, 3, 1, none⟩]
              5).map (fun x => x.e2b_sandbox_id) →
            r.status = "stopped")) := by
  decide

/-- Row selection characterization: `selectExpiredRunning` keeps exactly
the rows strictly past `expires_at` with status `running`. -/
theorem selectExpiredRunning_mem (db : List SandboxRow) (now : Nat)
    (r : SandboxRow) :
    r ∈ selectExpiredRunning db now ↔
      (r ∈ db ∧ r.expires_at < now ∧ r.status = "running") := by
  simp [selectExpiredRunning, List.mem_filter, and_assoc]

/-- Rows matching the destroyed id are `stopped` after `updateStopped`. -/
theorem updateStopped_target (db : List SandboxRow) (sid : String)
    (now : Nat) :
    ∀ r ∈ updateStopped db sid now,
      r.e2b_sandbox_id = sid → r.status = "stopped" := by
  intro r hr hre
  obtain ⟨r0, hr0, heq⟩ := List.mem_map.mp hr
  by_cases h : r0.e2b_sandbox_id == sid
  · rw [if_pos h] at heq
    rw [← heq]
  · rw [if_neg h] at heq
    rw [← heq] at hre
    exact absurd (beq_iff_eq.mpr hre) h

/-- `updateStopped` never reverts a row that is already `stopped` for a
given id. -/
theorem updateStopped_preserves (db : List SandboxRow) (sid i : String)
    (now : Nat)
    (h : ∀ r ∈ db, r.e2b_sandbox_id = i → r.status = "stopped") :
    ∀ r ∈ updateStopped db sid now,
      r.e2b_sandbox_id = i → r.status = "stopped" := by
  intro r hr hre
  obtain ⟨r0, hr0, heq⟩ := List.mem_map.mp hr
  by_cases hc : r0.e2b_sandbox_id == sid
  · rw [if_pos hc] at heq
    rw [← heq]
  · rw [if_neg hc] at heq
    rw [← heq] at hre ⊢
    exact h r0 hr0 hre

/-- A destroy whose provider close and database update both succeed marks
all rows of its id `stopped`. -/
theorem destroy_sandbox_stops_target (st : ManagerState) (sid : String)
    (now : Nat) (o : DestroyOracle) (hc : o.closeOk = true)
    (hu : o.updateOk = true) :
    ∀ r ∈ (destroy_sandbox st sid now o).state.db,
      r.e2b_sandbox_id = sid → r.status = "stopped" := by
  by_cases hmem : sid ∈ st.active
  · intro r hr
    have hdb : (destroy_sandbox st sid now o).state.db
        = updateStopped st.db sid now := by
      simp [destroy_sandbox, hmem, hc, hu]
    rw [hdb] at hr
    exact updateStopped_target st.db sid now r hr
  · intro r hr
    have hdb : (destroy_sandbox st sid now o).state.db
        = updateStopped st.db sid now := by
      simp [destroy_sandbox, hmem, hu]
    rw [hdb] at hr
    exact updateStopped_target st.db sid now r hr

/-- No destroy, whatever its outcome, reverts rows already `stopped` for a
given id. -/
theorem destroy_sandbox_preserves_stopped (st : ManagerState)
    (sid : String) (now : Nat) (o : DestroyOracle) (i : String)
    (h : ∀ r ∈ st.db, r.e2b_sandbox_id = i → r.status = "stopped") :
    ∀ r ∈ (destroy_sandbox st sid now o).state.db,
      r.e2b_sandbox_id = i → r.status = "stopped" := by
  by_cases hmem : sid ∈ st.active
  · by_cases hc : o.closeOk = false
    · simpa [destroy_sandbox, hmem, hc] using h
    · by_cases hu : o.updateOk = false
      · simpa [destroy_sandbox, hmem, hc, hu] using h
      · intro r hr
        have hdb : (destroy_sandbox st sid now o).state.db
            = updateStopped st.db sid now := by
          simp [destroy_sandbox, hmem, hc, hu]
        rw [hdb] at hr
        exact updateStopped_preserves st.db sid i now h r hr
  · by_cases hu : o.updateOk = false
    · simpa [destroy_sandbox, hmem, hu] using h
    · intro r hr
      have hdb : (destroy_sandbox st sid now o).state.db
          = updateStopped st.db sid now := by
        simp [destroy_sandbox, hmem, hu]
      rw [hdb] at hr
      exact updateStopped_preserves st.db sid i now h r hr

/-- The sweep loop preserves rows already `stopped` for a given id. -/
theorem sweepLoop_preserves_stopped (ors : String → DestroyOracle)
    (now : Nat) (i : String) :
    ∀ (ids : List String) (st : ManagerState),
      (∀ r ∈ st.db, r.e2b_sandbox_id = i → r.status = "stopped") →
      ∀ r ∈ (sweepLoop ors now ids st).state.db,
        r.e2b_sandbox_id = i → r.status = "stopped" := by
  intro ids
  induction ids with
  | nil => intro st h; simpa [sweepLoop] using h
  | cons x rest ih =>
    intro st h
    simp only [sweepLoop]
    exact ih _ (destroy_sandbox_preserves_stopped st x now (ors x) i h)

/-- Any id in the sweep list whose own external calls succeed ends with
all of its rows `stopped`, regardless of failures on the other ids. -/
theorem sweepLoop_stops_good (ors : String → DestroyOracle) (now : Nat) :
    ∀ (ids : List String) (st : ManagerState) (sid : String), sid ∈ ids →
      (ors sid).closeOk = true → (ors sid).updateOk = true →
      ∀ r ∈ (sweepLoop ors now ids st).state.db,
        r.e2b_sandbox_id = sid → r.status = "stopped" := by
  intro ids
  induction ids with
  | nil => intro st sid h; cases h
  | cons x rest ih =>
    intro st sid hmem hc hu
    rcases List.mem_cons.mp hmem with h | h
    · subst h
      simp only [sweepLoop]
      exact sweepLoop_preserves_stopped ors now sid rest _
        (destroy_sandbox_stops_target st sid now (ors sid) hc hu)
    · simp only [sweepLoop]
      exact ih _ sid h hc hu

/-- The sweep counts at most one per selected id. -/
theorem sweepLoop_count_le (ors : String → DestroyOracle) (now : Nat) :
    ∀ (ids : List String) (st : ManagerState),
      (sweepLoop ors now ids st).count ≤ ids.length := by
  intro ids
  induction ids with
  | nil => intro st; simp [sweepLoop]
  | cons x rest ih =>
    intro st
    have h := ih (destroy_sandbox st x now (ors x)).state
    simp only [sweepLoop, List.length_cons]
    by_cases hd : (destroy_sandbox st x now (ors x)).result = true
    · rw [if_pos hd]; omega
    · rw [if_neg hd]; omega

/-- A destroy whose external calls succeed returns True. -/
theorem destroy_sandbox_result_true (st : ManagerState) (sid : String)
    (now : Nat) (o : DestroyOracle) (hc : o.closeOk = true)
    (hu : o.updateOk = true) :
    (destroy_sandbox st sid now o).result = true := by
  by_cases hmem : sid ∈ st.active <;> simp [destroy_sandbox, hmem, hc, hu]

/-- When every per-id call succeeds, the sweep counts every id. -/
theorem sweepLoop_count_all (ors : String → DestroyOracle) (now : Nat) :
    ∀ (ids : List String) (st : ManagerState),
      (∀ sid ∈ ids, (ors sid).closeOk = true ∧ (ors sid).updateOk = true) →
      (sweepLoop ors now ids st).count = ids.length := by
  intro ids
  induction ids with
  | nil => intro st _; rfl
  | cons x rest ih =>
    intro st h
    have hx := h x (List.mem_cons_self x rest)
    have hr := ih (destroy_sandbox st x now (ors x)).state
      (fun s hs => h s (List.mem_cons_of_mem _ hs))
    have hd := destroy_sandbox_result_true st x now (ors x) hx.1 hx.2
    simp only [sweepLoop, hd, if_true, List.length_cons, hr]
    omega

/-- C7 (amended): the reaper's selection returns a row iff
`expires_at < now` (strict, matching the supabase `.lt`) and the status is
Running; every selected id whose own destroy calls succeed has all its
rows `stopped` after the sweep even when destroys of other ids fail (a
per-id failure does not abort the sweep); the returned count is the number
of destroys that returned True — it never exceeds the number of selected
ids and equals it when every per-id call succeeds. -/
theorem cleanup_expired_sweep (st : ManagerState) (now : Nat)
    (ors : String → DestroyOracle) :
    (∀ r, r ∈ selectExpiredRunning st.db now ↔
        (r ∈ st.db ∧ r.expires_at < now ∧ r.status = "running")) ∧
    (∀ sid, sid ∈ (selectExpiredRunning st.db now).map
          (fun x => x.e2b_sandbox_id) →
        (ors sid).closeOk = true → (ors sid).updateOk = true →
        ∀ r ∈ (cleanup_expired_sandboxes st now true ors).state.db,
          r.e2b_sandbox_id = sid → r.status = "stopped") ∧
    (cleanup_expired_sandboxes st now true ors).count ≤
        ((selectExpiredRunning st.db now).map
          (fun x => x.e2b_sandbox_id)).length ∧
    ((∀ sid ∈ (selectExpiredRunning st.db now).map
          (fun x => x.e2b_sandbox_id),
        (ors sid).closeOk = true ∧ (ors sid).updateOk = true) →
      (cleanup_expired_sandboxes st now true ors).count =
        ((selectExpiredRunning st.db now).map
          (fun x => x.e2b_sandbox_id)).length) := by
  refine ⟨fun r => selectExpiredRunning_mem st.db now r, ?_, ?_, ?_⟩
  · intro sid hmem hc hu
    simp only [cleanup_expired_sandboxes, if_neg (by simp : ¬ true = false)]
    exact sweepLoop_stops_good ors now _ st sid hmem hc hu
  · simp only [cleanup_expired_sandboxes, if_neg (by simp : ¬ true = false)]
    exact sweepLoop_count_le ors now _ st
  · intro h
    simp only [cleanup_expired_sandboxes, if_neg (by simp : ¬ true = false)]
    exact sweepLoop_count_all ors now _ st h

/-- C7 witness: one concrete expired sandbox, all external calls
succeeding: it is selected, ends `stopped`, and the sweep returns 1. -/
theorem cleanup_expired_sweep_witness :
    (∀ r ∈ (cleanup_expired_sandboxes
          ⟨[⟨"iB", "b", "u1", "Python3", "running", 1, 1, 3, 1, none⟩],
            ["b"], []⟩ 5 true (fun _ => ⟨true, true, true⟩)).state.db,
        r.e2b_sandbox_id = "b" → r.status = "stopped") ∧
    (cleanup_expired_sandboxes
        ⟨[⟨"iB", "b", "u1", "Python3", "running", 1, 1, 3, 1, none⟩],
          ["b"], []⟩ 5 true (fun _ => ⟨true, true, true⟩)).count = 1 :=
  ⟨(cleanup_expired_sweep
      ⟨[⟨"iB", "b", "u1", "Python3", "running", 1, 1, 3, 1, none⟩],
        ["b"], []⟩ 5 (fun _ => ⟨true, true, true⟩)).2.1 "b" (by decide) rfl
      rfl,
   ((cleanup_expired_sweep
      ⟨[⟨"iB", "b", "u1", "Python3", "running", 1, 1, 3, 1, none⟩],
        ["b"], []⟩ 5 (fun _ => ⟨true, true, true⟩)).2.2.2
      (by decide)).trans (by decide)⟩

end AgentBox
